import Mathlib

/-! Formal model of the ai-check verification core: the transient-error
classifier and retry executor shared by the repository and usecase layers,
the cache-aside read/write orchestration of the verification use case, and
metrics aggregation.  All definitions are shallow embeddings of the Go
sources under `go-api/internal` (`repository/verification_repository.go`,
`usecase/verification.go`, `usecase/metrics.go`, `usecase/cache.go`,
`logging/operation_error.go`).  Durations are modelled in milliseconds (the
backoff bookkeeping) or seconds (cache TTLs) as naturals; `float32`/`float64`
fields that the code only copies around are modelled as `Int`/`ℚ`. -/

/-- Model of the Go `error` values the verification core distinguishes.
`opError` models `*logging.OperationError` (operation name, request id,
wrapped cause, with `Unwrap` returning the cause); the remaining
constructors are representatives of the sentinel errors and error classes
that the two `isTransientError` classifiers inspect:
`context.DeadlineExceeded`, `context.Canceled`, `driver.ErrBadConn`,
an error whose `Timeout()` method reports true, an error whose
`Temporary()` method reports true, `redis.Nil` (the distinguished
cache-miss value), `gorm.ErrRecordNotFound`, and a plain
business-validation error. -/
inductive GoError where
  | deadlineExceeded
  | canceled
  | badConn
  | netTimeout
  | temporary
  | redisNil
  | recordNotFound
  | validation (msg : String)
  | opError (operation requestID : String) (cause : GoError)
deriving DecidableEq, Repr, BEq

/-- Model of `errors.Is err target` for the sentinel targets used by the
classifiers: structural comparison, unwrapping `OperationError.Unwrap`
chains.  (`*OperationError` never equals a sentinel, so descending first
is equivalent to Go's compare-then-unwrap order.) -/
def errIs : GoError → GoError → Bool
  | .opError _ _ cause, target => errIs cause target
  | e, target => e == target

/-- Model of `errors.As err &netErr` for `interface { Timeout() bool }`
followed by `netErr.Timeout()`: walks the unwrap chain looking for a value
whose `Timeout()` reports true.  `context.DeadlineExceeded` implements
`net.Error` with `Timeout() = true`; `*OperationError` only unwraps. -/
def hasTimeout : GoError → Bool
  | .deadlineExceeded => true
  | .netTimeout => true
  | .opError _ _ cause => hasTimeout cause
  | _ => false

/-- Model of `errors.As err &temp` for `interface { Temporary() bool }`
followed by `temp.Temporary()`.  `context.DeadlineExceeded` also reports
`Temporary() = true`. -/
def hasTemporary : GoError → Bool
  | .deadlineExceeded => true
  | .temporary => true
  | .opError _ _ cause => hasTemporary cause
  | _ => false

namespace repository

/-- `isTransientError` from `internal/repository/verification_repository.go`
(lines 136-160): deadline-exceeded, `driver.ErrBadConn`, network timeout, or
temporary semantics are transient; everything else is not.  The `err == nil`
guard of the Go function is handled at call sites, which only classify
non-nil errors. -/
def isTransientError (err : GoError) : Bool :=
  if errIs err .deadlineExceeded then true
  else if errIs err .badConn then true
  else if hasTimeout err then true
  else if hasTemporary err then true
  else false

end repository

namespace usecase

/-- `isTransientError` from `internal/usecase/verification.go`
(lines 317-337): deadline-exceeded, network timeout, or temporary semantics
are transient; there is no `driver.ErrBadConn` check in this copy. -/
def isTransientError (err : GoError) : Bool :=
  if errIs err .deadlineExceeded then true
  else if hasTimeout err then true
  else if hasTemporary err then true
  else false

end usecase

/-- Observable outcome of one run of a retry executor: how many times `fn`
was invoked, the sequence of backoff waits actually slept (in order), the
returned error (`none` = nil), and the attempt index at which `fn`
succeeded, if any. -/
structure RetryOutcome where
  calls : Nat
  waits : List Nat
  err : Option GoError
  succAt : Option Nat
deriving DecidableEq, Repr

/-- The shared retry loop body of `executeWithRetry`
(`verification_repository.go` lines 103-133) and `withRedisRetry`
(`verification.go` lines 268-298), which differ only in the classifier they
consult.  `fn k` is the error returned by the k-th invocation of the wrapped
function (`none` = nil); `ctxDoneAt k` tells whether the caller's context is
already cancelled when the wait preceding attempt `k` starts, in which case
`ctx.Err()` is modelled by `ctxErr`.  `fuel` is `total - attempt`, the number
of loop iterations left. -/
def retryLoop (transient : GoError → Bool) (fn : Nat → Option GoError)
    (ctxDoneAt : Nat → Bool) (ctxErr : GoError) (operation requestID : String)
    (total maxB : Nat) : Nat → Nat → Nat → Option GoError → RetryOutcome
  | 0, _, _, lastErr => ⟨0, [], lastErr.map (GoError.opError operation requestID), none⟩
  | fuel + 1, attempt, backoff, _ =>
    if 0 < attempt ∧ ctxDoneAt attempt then
      ⟨0, [], some (.opError operation requestID ctxErr), none⟩
    else
      let waited : List Nat := if 0 < attempt then [backoff] else []
      let nextBackoff : Nat :=
        if 0 < attempt then (if backoff * 2 ≤ maxB then backoff * 2 else backoff) else backoff
      match fn attempt with
      | none => ⟨1, waited, none, some attempt⟩
      | some e =>
        if transient e = false ∨ attempt = total - 1 then
          ⟨1, waited, some (.opError operation requestID e), none⟩
        else
          let rest := retryLoop transient fn ctxDoneAt ctxErr operation requestID total maxB
            fuel (attempt + 1) nextBackoff (some e)
          ⟨rest.calls + 1, waited ++ rest.waits, rest.err, rest.succAt⟩

namespace repository

/-- `executeWithRetry` from `internal/repository/verification_repository.go`
(lines 98-134).  With `retryAttempts <= 1` it returns `fn()` raw (no
wrapping); otherwise it runs the retry loop with the repository classifier.
The constructor `NewVerificationRepository` fixes `retryAttempts = 3`,
`initialBackoff = 100` ms, `maxBackoff = 2000` ms. -/
def executeWithRetry (fn : Nat → Option GoError) (ctxDoneAt : Nat → Bool) (ctxErr : GoError)
    (operation requestID : String) (retryAttempts initialBackoff maxBackoff : Nat) :
    RetryOutcome :=
  if retryAttempts ≤ 1 then
    match fn 0 with
    | none => ⟨1, [], none, some 0⟩
    | some e => ⟨1, [], some e, none⟩
  else
    retryLoop isTransientError fn ctxDoneAt ctxErr operation requestID retryAttempts maxBackoff
      retryAttempts 0 initialBackoff none

end repository

namespace usecase

/-- `withRedisRetry` from `internal/usecase/verification.go` (lines 262-299).
With `retryAttempts <= 1` it returns `logging.NewOperationError(operation,
requestID, fn())`, which is nil for a nil error and an `OperationError`
wrapper otherwise; with a larger budget it runs the retry loop with the
usecase classifier.  The constructor `NewVerificationUseCase` fixes
`retryAttempts = 3`, `initialBackoff = 50` ms, `maxBackoff = 1000` ms. -/
def withRedisRetry (fn : Nat → Option GoError) (ctxDoneAt : Nat → Bool) (ctxErr : GoError)
    (operation requestID : String) (retryAttempts initialBackoff maxBackoff : Nat) :
    RetryOutcome :=
  if retryAttempts ≤ 1 then
    match fn 0 with
    | none => ⟨1, [], none, some 0⟩
    | some e => ⟨1, [], some (.opError operation requestID e), none⟩
  else
    retryLoop isTransientError fn ctxDoneAt ctxErr operation requestID retryAttempts maxBackoff
      retryAttempts 0 initialBackoff none

end usecase

namespace repository

/-- `VerificationLog` from `internal/repository/verification_repository.go`
(lines 16-25), minus the auto-increment `ID` surrogate key, which no claim
touches.  `score` models the copied `float32`, `createdAt` the UTC
timestamp. -/
structure VerificationLog where
  requestID : String
  userID : String
  sha1Hash : String
  score : Int
  success : Bool
  details : String
  createdAt : Nat
deriving DecidableEq, Repr

/-- The gorm query inside `FindByRequestIDAndUser` (line 71): `First` with
`request_id = ? AND user_id = ?` over the table, returning
`gorm.ErrRecordNotFound` when no row matches. -/
def findQuery (db : List VerificationLog) (requestID userID : String) :
    Except GoError VerificationLog :=
  match db.find? (fun l => l.requestID == requestID && l.userID == userID) with
  | some l => .ok l
  | none => .error .recordNotFound

/-- `FindByRequestIDAndUser` from `internal/repository/verification_repository.go`
(lines 68-77): the query wrapped by `executeWithRetry` under operation
`repository.find_by_request_and_user` with the requestID as correlation id,
at the constructor's retry configuration.  The queried database is
deterministic, so every attempt returns the same outcome. -/
def FindByRequestIDAndUser (db : List VerificationLog) (ctxDoneAt : Nat → Bool)
    (ctxErr : GoError) (requestID userID : String) : Except GoError VerificationLog :=
  let fn : Nat → Option GoError := fun _ =>
    match findQuery db requestID userID with
    | .ok _ => none
    | .error e => some e
  let out := executeWithRetry fn ctxDoneAt ctxErr "repository.find_by_request_and_user"
    requestID 3 100 2000
  match out.err with
  | some e => .error e
  | none => findQuery db requestID userID

/-- `MetricsAggregation`, the aggregate row returned by
`repository.AggregateMetrics` and consumed by `GetMetricsSummary`
(`internal/usecase/metrics.go`): int64 counters and float64 means
(modelled as ℚ). -/
structure MetricsAggregation where
  totalCount : Int
  successCount : Int
  averageScore : ℚ
  averageProcessingLatencyMs : ℚ
deriving DecidableEq, Repr

end repository

namespace usecase

/-- `Result` from `internal/imageprocessor/imageprocessor.go`: the outcome
returned by the image processor service (`float32` score modelled as
`Int`). -/
structure Result where
  success : Bool
  score : Int
  message : String
deriving DecidableEq, Repr

/-- `cachedVerification` from `internal/usecase/verification.go`
(lines 115-123): the JSON-serialized projection written to the cache. -/
structure cachedVerification where
  requestID : String
  userID : String
  score : Int
  success : Bool
  details : String
  hash : String
  createdAt : Nat
deriving DecidableEq, Repr

/-- Per-attempt behaviour of one redis operation issued through
`withRedisRetry`: the error of the k-th invocation of the closure, and
whether the caller's context is already cancelled when the wait preceding
attempt k starts. -/
structure RedisOpEnv where
  fnErr : Nat → Option GoError
  ctxDoneAt : Nat → Bool

/-- One observable step of `VerifyImage`, in execution order: a cache `Set`
(key, value, TTL in seconds), the gRPC `Process` call, or a repository
`SaveLog`. -/
inductive VStep where
  | cacheSet (key value : String) (ttlSeconds : Nat)
  | grpcProcess (userID : String) (imageBytes : List Nat)
  | saveLog (log : repository.VerificationLog)
deriving DecidableEq, Repr

/-- The collaborator outcomes one `VerifyImage` call observes: the
per-attempt errors of the two cache `Set` operations, the processor result,
the `repo.SaveLog` outcome, the modelled `ctx.Err()`, and the
`time.Now().UTC()` timestamp. -/
structure VerifyEnv where
  setProcessing : RedisOpEnv
  procResult : Except GoError Result
  saveErr : Option GoError
  setResult : RedisOpEnv
  ctxErr : GoError
  now : Nat

/-- `VerifyImage` from `internal/usecase/verification.go` (lines 145-206),
with the generated `uuid.NewString()` passed in as `requestID` and the
external `sha1`/`fmt.Sprintf`/`json.Marshal` collaborators passed as
functions (`json.Marshal` of `cachedVerification` cannot fail, so the
marshal-error branch of the source is unreachable and the encoder is total).
Returns the call's outcome together with the ordered trace of steps
executed.  The retry configuration `(retryAttempts, initialBackoff,
maxBackoff)` is the use case's field triple. -/
def VerifyImage (retryAttempts initialBackoff maxBackoff : Nat)
    (sha1Hex : List Nat → String) (fmtDetails : Bool → Int → String → String)
    (jsonEncode : cachedVerification → String) (env : VerifyEnv)
    (userID : String) (imageBytes : List Nat) (requestID : String) :
    Except GoError (String × Result) × List VStep :=
  let cacheKey := "verification:" ++ requestID
  let s1 : List VStep := [.cacheSet cacheKey "processing" 60]
  match (withRedisRetry env.setProcessing.fnErr env.setProcessing.ctxDoneAt env.ctxErr
      "cache.set.processing" requestID retryAttempts initialBackoff maxBackoff).err with
  | some e => (.error e, s1)
  | none =>
    let s2 := s1 ++ [.grpcProcess userID imageBytes]
    match env.procResult with
    | .error e => (.error (.opError "usecase.grpc_process_image" requestID e), s2)
    | .ok result =>
      let hashHex := sha1Hex imageBytes
      let details := fmtDetails result.success result.score hashHex
      let log : repository.VerificationLog :=
        ⟨requestID, userID, hashHex, result.score, result.success, details, env.now⟩
      let s3 := s2 ++ [.saveLog log]
      match env.saveErr with
      | some e => (.error (.opError "usecase.save_log" requestID e), s3)
      | none =>
        let cached : cachedVerification :=
          ⟨requestID, userID, log.score, log.success, log.details, log.sha1Hash, log.createdAt⟩
        let serialized := jsonEncode cached
        let s4 := s3 ++ [.cacheSet cacheKey serialized 300]
        match (withRedisRetry env.setResult.fnErr env.setResult.ctxDoneAt env.ctxErr
            "cache.set.result" requestID retryAttempts initialBackoff maxBackoff).err with
        | some e => (.error e, s4)
        | none => (.ok (requestID, result), s4)

/-- The collaborator outcomes one `GetResult` call observes: the per-attempt
error and returned string of the cache `Get`, the modelled `ctx.Err()`, and
the outcome of `repo.FindByRequestIDAndUser`. -/
structure GetEnv where
  getErr : Nat → Option GoError
  getVal : Nat → String
  ctxDoneAt : Nat → Bool
  ctxErr : GoError
  findResult : Except GoError repository.VerificationLog

/-- `withRedisGet` from `internal/usecase/verification.go` (lines 301-315):
runs the cache `Get` through `withRedisRetry`, capturing the value of the
successful attempt (the `result` variable keeps its zero value `""` if no
attempt succeeds). -/
def withRedisGet (retryAttempts initialBackoff maxBackoff : Nat) (env : GetEnv)
    (requestID operation cacheKey : String) : Except GoError String :=
  let out := withRedisRetry env.getErr env.ctxDoneAt env.ctxErr operation requestID
    retryAttempts initialBackoff maxBackoff
  match out.err with
  | some e => .error e
  | none => .ok (match out.succAt with | some k => env.getVal k | none => "")

/-- `GetResult` from `internal/usecase/verification.go` (lines 209-242), with
`json.Unmarshal` passed as a decode function (`none` = decode error).
Returns the call's outcome together with the number of
`repo.FindByRequestIDAndUser` calls made. -/
def GetResult (retryAttempts initialBackoff maxBackoff : Nat)
    (jsonDecode : String → Option cachedVerification) (env : GetEnv)
    (userID requestID : String) :
    Except GoError repository.VerificationLog × Nat :=
  let cacheKey := "verification:" ++ requestID
  match withRedisGet retryAttempts initialBackoff maxBackoff env requestID
      "cache.get.result" cacheKey with
  | .ok cached =>
    match jsonDecode cached with
    | none => (env.findResult, 1)
    | some payload =>
      let log0 : repository.VerificationLog :=
        ⟨requestID, userID, payload.hash, payload.score, payload.success, payload.details,
          payload.createdAt⟩
      let log1 := if payload.userID ≠ "" then { log0 with userID := payload.userID } else log0
      let log2 :=
        if payload.requestID ≠ "" then { log1 with requestID := payload.requestID } else log1
      (.ok log2, 0)
  | .error _ => (env.findResult, 1)

/-- `MetricsSummary` from `internal/usecase/metrics.go` (lines 6-12). -/
structure MetricsSummary where
  totalRequests : Int
  successfulRequests : Int
  successRate : ℚ
  averageScore : ℚ
  averageProcessingLatencyMs : ℚ
deriving DecidableEq, Repr

/-- `GetMetricsSummary` from `internal/usecase/metrics.go` (lines 15-33),
with the outcome of `repo.AggregateMetrics` passed in: propagates its error
unchanged, otherwise copies the aggregate fields and sets `successRate` to
`successCount / totalCount` only when `totalCount > 0` (leaving the zero
value otherwise). -/
def GetMetricsSummary (aggRes : Except GoError repository.MetricsAggregation) :
    Except GoError MetricsSummary :=
  match aggRes with
  | .error e => .error e
  | .ok a =>
    let base : MetricsSummary :=
      ⟨a.totalCount, a.successCount, 0, a.averageScore, a.averageProcessingLatencyMs⟩
    .ok (if 0 < a.totalCount then
          { base with successRate := (a.successCount : ℚ) / (a.totalCount : ℚ) }
        else base)

end usecase

/-- The backoff value the retry loop holds when the wait preceding retry
`j + 1` starts: `backoffSeq maxB b 0 = b`, and each step doubles it only
while the doubled value still fits under `maxB` (the source guard
`if next := backoff * 2; next <= maxBackoff`). -/
def backoffSeq (maxB b : Nat) : Nat → Nat
  | 0 => b
  | j + 1 =>
    let p := backoffSeq maxB b j
    if p * 2 ≤ maxB then p * 2 else p

/-- Whether an error value is a `*logging.OperationError` wrapper. -/
def isOpError : GoError → Bool
  | .opError _ _ _ => true
  | _ => false

lemma retryLoop_calls_le (transient : GoError → Bool) (fn : Nat → Option GoError)
    (ctxDoneAt : Nat → Bool) (ctxErr : GoError) (operation requestID : String)
    (total maxB : Nat) :
    ∀ fuel attempt backoff lastErr,
      (retryLoop transient fn ctxDoneAt ctxErr operation requestID total maxB
        fuel attempt backoff lastErr).calls ≤ fuel := by
  intro fuel
  induction fuel with
  | zero => intro attempt backoff lastErr; simp [retryLoop]
  | succ n ih =>
    intro attempt backoff lastErr
    by_cases hc : 0 < attempt ∧ ctxDoneAt attempt
    · simp [retryLoop, hc]
    · cases h : fn attempt with
      | none => simp [retryLoop, hc, h]
      | some e =>
        by_cases ht : transient e = false ∨ attempt = total - 1
        · simp [retryLoop, hc, h, ht]
        · have hrec := ih (attempt + 1)
            (if 0 < attempt then (if backoff * 2 ≤ maxB then backoff * 2 else backoff)
              else backoff) (some e)
          simp only [retryLoop, hc, if_neg, h, ht, if_false]
          omega

lemma retryLoop_err_opError (transient : GoError → Bool) (fn : Nat → Option GoError)
    (ctxDoneAt : Nat → Bool) (ctxErr : GoError) (operation requestID : String)
    (total maxB : Nat) :
    ∀ fuel attempt backoff lastErr e,
      (retryLoop transient fn ctxDoneAt ctxErr operation requestID total maxB
        fuel attempt backoff lastErr).err = some e →
      ∃ c, e = .opError operation requestID c := by
  intro fuel
  induction fuel with
  | zero =>
    intro attempt backoff lastErr e h
    cases lastErr with
    | none => simp [retryLoop] at h
    | some c => exact ⟨c, by simpa [retryLoop] using h.symm⟩
  | succ n ih =>
    intro attempt backoff lastErr e h
    by_cases hc : 0 < attempt ∧ ctxDoneAt attempt
    · simp [retryLoop, hc] at h
      exact ⟨ctxErr, h.symm⟩
    · cases hfn : fn attempt with
      | none => simp [retryLoop, hc, hfn] at h
      | some e0 =>
        by_cases ht : transient e0 = false ∨ attempt = total - 1
        · simp [retryLoop, hc, hfn, ht] at h
          exact ⟨e0, h.symm⟩
        · simp only [retryLoop, hc, if_neg, hfn, ht, if_false] at h
          exact ih (attempt + 1) _ (some e0) e h

lemma backoffSeq_shift (maxB b : Nat) :
    ∀ j, backoffSeq maxB (if b * 2 ≤ maxB then b * 2 else b) j = backoffSeq maxB b (j + 1) := by
  intro j
  induction j with
  | zero => simp [backoffSeq]
  | succ n ih => simp [backoffSeq, ih]

lemma retryLoop_waits_shape (transient : GoError → Bool) (fn : Nat → Option GoError)
    (ctxDoneAt : Nat → Bool) (ctxErr : GoError) (operation requestID : String)
    (total maxB : Nat) :
    ∀ fuel attempt backoff lastErr, 1 ≤ attempt →
      ∃ n ≤ fuel,
        (retryLoop transient fn ctxDoneAt ctxErr operation requestID total maxB
          fuel attempt backoff lastErr).waits =
        (List.range n).map (backoffSeq maxB backoff) := by
  intro fuel
  induction fuel with
  | zero =>
    intro attempt backoff lastErr _
    exact ⟨0, Nat.le_refl 0, by simp [retryLoop]⟩
  | succ m ih =>
    intro attempt backoff lastErr ha
    have ha' : 0 < attempt := ha
    by_cases hc : ctxDoneAt attempt
    · exact ⟨0, Nat.zero_le _, by simp [retryLoop, ha', hc]⟩
    · cases hfn : fn attempt with
      | none =>
        refine ⟨1, by omega, ?_⟩
        simp [retryLoop, ha', hc, hfn, backoffSeq, List.range_succ]
      | some e0 =>
        by_cases ht : transient e0 = false ∨ attempt = total - 1
        · refine ⟨1, by omega, ?_⟩
          simp [retryLoop, ha', hc, hfn, ht, backoffSeq, List.range_succ]
        · obtain ⟨n, hn, hw⟩ := ih (attempt + 1)
            (if backoff * 2 ≤ maxB then backoff * 2 else backoff) (some e0) (by omega)
          refine ⟨n + 1, by omega, ?_⟩
          have hmap : (List.range n).map
              (backoffSeq maxB (if backoff * 2 ≤ maxB then backoff * 2 else backoff)) =
              (List.range n).map (fun j => backoffSeq maxB backoff (j + 1)) :=
            List.map_congr_left (fun j _ => backoffSeq_shift maxB backoff j)
          simp only [retryLoop, ha', hc, hfn, ht]
          simp only [ha', if_pos, List.range_succ_eq_map, List.map_cons, List.map_map]
          rw [hw, hmap]
          simp [backoffSeq, Function.comp]

lemma retryLoop_cancel (transient : GoError → Bool) (fn : Nat → Option GoError)
    (ctxDoneAt : Nat → Bool) (ctxErr : GoError) (operation requestID : String)
    (total maxB : Nat) :
    ∀ m fuel attempt backoff lastErr, 1 ≤ attempt → m + 1 ≤ fuel →
      (∀ j, attempt ≤ j → j < attempt + m →
        (∃ e, fn j = some e ∧ transient e = true) ∧ j ≠ total - 1 ∧ ctxDoneAt j = false) →
      ctxDoneAt (attempt + m) = true →
      (retryLoop transient fn ctxDoneAt ctxErr operation requestID total maxB
          fuel attempt backoff lastErr).calls = m ∧
      (retryLoop transient fn ctxDoneAt ctxErr operation requestID total maxB
          fuel attempt backoff lastErr).err = some (.opError operation requestID ctxErr) ∧
      (retryLoop transient fn ctxDoneAt ctxErr operation requestID total maxB
          fuel attempt backoff lastErr).succAt = none := by
  intro m
  induction m with
  | zero =>
    intro fuel attempt backoff lastErr ha hfuel _ hdone
    obtain ⟨f, rfl⟩ : ∃ f, fuel = f + 1 := ⟨fuel - 1, by omega⟩
    have ha' : 0 < attempt := ha
    simp only [Nat.add_zero] at hdone
    simp [retryLoop, ha', hdone]
  | succ k ih =>
    intro fuel attempt backoff lastErr ha hfuel hrun hdone
    obtain ⟨f, rfl⟩ : ∃ f, fuel = f + 1 := ⟨fuel - 1, by omega⟩
    have ha' : 0 < attempt := ha
    obtain ⟨⟨e, hfn, htr⟩, hne, hcd⟩ := hrun attempt (Nat.le_refl _) (by omega)
    have hstep := ih f (attempt + 1)
      (if backoff * 2 ≤ maxB then backoff * 2 else backoff) (some e)
      (by omega) (by omega)
      (by
        intro j hj1 hj2
        exact hrun j (by omega) (by omega))
      (by
        have : attempt + 1 + k = attempt + (k + 1) := by omega
        rw [this]; exact hdone)
    have hcalls := hstep.1
    have herr := hstep.2.1
    have hsucc := hstep.2.2
    refine ⟨?_, ?_, ?_⟩ <;>
      simp [retryLoop, ha', hcd, hfn, htr, hne, hcalls, herr, hsucc]

lemma executeWithRetry_eq_loop (fn : Nat → Option GoError) (ctxDoneAt : Nat → Bool)
    (ctxErr : GoError) (operation requestID : String)
    (retryAttempts initialBackoff maxBackoff : Nat) (h : 2 ≤ retryAttempts) :
    repository.executeWithRetry fn ctxDoneAt ctxErr operation requestID
      retryAttempts initialBackoff maxBackoff =
    retryLoop repository.isTransientError fn ctxDoneAt ctxErr operation requestID
      retryAttempts maxBackoff retryAttempts 0 initialBackoff none := by
  rw [repository.executeWithRetry, if_neg (by omega)]

lemma withRedisRetry_eq_loop (fn : Nat → Option GoError) (ctxDoneAt : Nat → Bool)
    (ctxErr : GoError) (operation requestID : String)
    (retryAttempts initialBackoff maxBackoff : Nat) (h : 2 ≤ retryAttempts) :
    usecase.withRedisRetry fn ctxDoneAt ctxErr operation requestID
      retryAttempts initialBackoff maxBackoff =
    retryLoop usecase.isTransientError fn ctxDoneAt ctxErr operation requestID
      retryAttempts maxBackoff retryAttempts 0 initialBackoff none := by
  rw [usecase.withRedisRetry, if_neg (by omega)]

lemma retryLoop_zero_none (transient : GoError → Bool) (fn : Nat → Option GoError)
    (ctxDoneAt : Nat → Bool) (ctxErr : GoError) (operation requestID : String)
    (total maxB fuel backoff : Nat) (lastErr : Option GoError) (hfn : fn 0 = none) :
    retryLoop transient fn ctxDoneAt ctxErr operation requestID total maxB
      (fuel + 1) 0 backoff lastErr = ⟨1, [], none, some 0⟩ := by
  simp [retryLoop, hfn]

lemma retryLoop_zero_stop (transient : GoError → Bool) (fn : Nat → Option GoError)
    (ctxDoneAt : Nat → Bool) (ctxErr : GoError) (operation requestID : String)
    (total maxB fuel backoff : Nat) (lastErr : Option GoError) (e : GoError)
    (hfn : fn 0 = some e) (h : transient e = false ∨ 0 = total - 1) :
    retryLoop transient fn ctxDoneAt ctxErr operation requestID total maxB
      (fuel + 1) 0 backoff lastErr =
    ⟨1, [], some (.opError operation requestID e), none⟩ := by
  rcases h with h | h
  · simp [retryLoop, hfn, h]
  · simp [retryLoop, hfn, ← h]

lemma retryLoop_zero_cont (transient : GoError → Bool) (fn : Nat → Option GoError)
    (ctxDoneAt : Nat → Bool) (ctxErr : GoError) (operation requestID : String)
    (total maxB fuel backoff : Nat) (lastErr : Option GoError) (e : GoError)
    (hfn : fn 0 = some e) (ht : transient e = true) (hne : ¬(0 = total - 1)) :
    retryLoop transient fn ctxDoneAt ctxErr operation requestID total maxB
      (fuel + 1) 0 backoff lastErr =
    ⟨(retryLoop transient fn ctxDoneAt ctxErr operation requestID total maxB
        fuel 1 backoff (some e)).calls + 1,
      (retryLoop transient fn ctxDoneAt ctxErr operation requestID total maxB
        fuel 1 backoff (some e)).waits,
      (retryLoop transient fn ctxDoneAt ctxErr operation requestID total maxB
        fuel 1 backoff (some e)).err,
      (retryLoop transient fn ctxDoneAt ctxErr operation requestID total maxB
        fuel 1 backoff (some e)).succAt⟩ := by
  simp [retryLoop, hfn, ht, hne]

/-- Claim C1: for every operation run through the retry executors with an
attempt budget of at least 1, a non-transient error from the first
invocation means the wrapped function runs exactly once regardless of the
budget, and in every case the function is invoked at most `attemptBudget`
times — no retry loop exceeds its hard attempt ceiling. -/
theorem C1_retry_attempt_ceiling (fn : Nat → Option GoError) (ctxDoneAt : Nat → Bool)
    (ctxErr : GoError) (operation requestID : String)
    (retryAttempts initialBackoff maxBackoff : Nat) (hbudget : 1 ≤ retryAttempts) :
    ((∀ e, fn 0 = some e → repository.isTransientError e = false →
        (repository.executeWithRetry fn ctxDoneAt ctxErr operation requestID
          retryAttempts initialBackoff maxBackoff).calls = 1) ∧
      (repository.executeWithRetry fn ctxDoneAt ctxErr operation requestID
        retryAttempts initialBackoff maxBackoff).calls ≤ retryAttempts) ∧
    ((∀ e, fn 0 = some e → usecase.isTransientError e = false →
        (usecase.withRedisRetry fn ctxDoneAt ctxErr operation requestID
          retryAttempts initialBackoff maxBackoff).calls = 1) ∧
      (usecase.withRedisRetry fn ctxDoneAt ctxErr operation requestID
        retryAttempts initialBackoff maxBackoff).calls ≤ retryAttempts) := by
  by_cases hle : retryAttempts ≤ 1
  · have h1 : (repository.executeWithRetry fn ctxDoneAt ctxErr operation requestID
        retryAttempts initialBackoff maxBackoff).calls = 1 := by
      rw [repository.executeWithRetry, if_pos hle]
      cases h : fn 0 <;> simp
    have h2 : (usecase.withRedisRetry fn ctxDoneAt ctxErr operation requestID
        retryAttempts initialBackoff maxBackoff).calls = 1 := by
      rw [usecase.withRedisRetry, if_pos hle]
      cases h : fn 0 <;> simp
    exact ⟨⟨fun _ _ _ => h1, by omega⟩, ⟨fun _ _ _ => h2, by omega⟩⟩
  · have h2 : 2 ≤ retryAttempts := by omega
    obtain ⟨f, hf⟩ : ∃ f, retryAttempts = f + 1 := ⟨retryAttempts - 1, by omega⟩
    refine ⟨⟨?_, ?_⟩, ⟨?_, ?_⟩⟩
    · intro e hfn htr
      rw [executeWithRetry_eq_loop fn ctxDoneAt ctxErr operation requestID _ _ _ h2]
      rw [hf, retryLoop_zero_stop _ _ _ _ _ _ _ _ _ _ _ _ hfn (Or.inl htr)]
    · rw [executeWithRetry_eq_loop fn ctxDoneAt ctxErr operation requestID _ _ _ h2]
      exact retryLoop_calls_le _ _ _ _ _ _ _ _ _ _ _ _
    · intro e hfn htr
      rw [withRedisRetry_eq_loop fn ctxDoneAt ctxErr operation requestID _ _ _ h2]
      rw [hf, retryLoop_zero_stop _ _ _ _ _ _ _ _ _ _ _ _ hfn (Or.inl htr)]
    · rw [withRedisRetry_eq_loop fn ctxDoneAt ctxErr operation requestID _ _ _ h2]
      exact retryLoop_calls_le _ _ _ _ _ _ _ _ _ _ _ _

/-- Claim C1 (witness): with the constructor budgets, a non-transient error
means one invocation, and calls never exceed the budget. -/
theorem C1_retry_attempt_ceiling_witness :
    (repository.executeWithRetry (fun _ => some .recordNotFound) (fun _ => false) .canceled
      "repository.save_log" "req-1" 3 100 2000).calls = 1 ∧
    (usecase.withRedisRetry (fun _ => some .netTimeout) (fun _ => false) .canceled
      "cache.set.result" "req-1" 3 50 1000).calls ≤ 3 := by
  constructor
  · exact (C1_retry_attempt_ceiling (fun _ => some .recordNotFound) (fun _ => false) .canceled
      "repository.save_log" "req-1" 3 100 2000 (by omega)).1.1 .recordNotFound rfl (by decide)
  · exact (C1_retry_attempt_ceiling (fun _ => some .netTimeout) (fun _ => false) .canceled
      "cache.set.result" "req-1" 3 50 1000 (by omega)).2.2

/-- Claim C2 (counterexample): the usecase copy of the classifier, one of the
two symbols the claim cites, returns false on the driver-reported
bad-connection sentinel, although the claim requires true for it; the
repository copy does return true, so the two cited classifiers disagree. -/
theorem C2_transient_classifier_counterexample :
    usecase.isTransientError .badConn = false ∧
    repository.isTransientError .badConn = true := by decide

/-- Claim C2 (amended): the repository classifier returns true exactly for
deadline-exceeded, driver bad-connection, network-timeout, or
temporary-semantics errors (seen through `OperationError` wrappers), and the
usecase classifier returns true exactly for deadline-exceeded,
network-timeout, or temporary-semantics errors — it does not treat the
driver bad-connection sentinel as transient; both return false for the
cache's key-not-present value, the store's record-not-found error, plain
context cancellation, and business-validation errors. -/
theorem C2_transient_classifier_amended :
    (repository.isTransientError .deadlineExceeded = true ∧
      repository.isTransientError .badConn = true ∧
      repository.isTransientError .netTimeout = true ∧
      repository.isTransientError .temporary = true ∧
      repository.isTransientError .redisNil = false ∧
      repository.isTransientError .recordNotFound = false ∧
      repository.isTransientError .canceled = false ∧
      (∀ msg, repository.isTransientError (.validation msg) = false) ∧
      (∀ operation requestID e,
        repository.isTransientError (.opError operation requestID e) =
          repository.isTransientError e)) ∧
    (usecase.isTransientError .deadlineExceeded = true ∧
      usecase.isTransientError .badConn = false ∧
      usecase.isTransientError .netTimeout = true ∧
      usecase.isTransientError .temporary = true ∧
      usecase.isTransientError .redisNil = false ∧
      usecase.isTransientError .recordNotFound = false ∧
      usecase.isTransientError .canceled = false ∧
      (∀ msg, usecase.isTransientError (.validation msg) = false) ∧
      (∀ operation requestID e,
        usecase.isTransientError (.opError operation requestID e) =
          usecase.isTransientError e)) := by
  refine ⟨⟨by decide, by decide, by decide, by decide, by decide, by decide, by decide,
      fun msg => rfl, fun operation requestID e => rfl⟩,
    by decide, by decide, by decide, by decide, by decide, by decide, by decide,
      fun msg => rfl, fun operation requestID e => rfl⟩

/-- Claim C5 (counterexample): with an attempt budget of 1, the repository
executor returns the function's error raw — the returned error is the plain
validation error, not an `OperationError` carrying operation and correlation
metadata, contradicting the claim's "wrapped ... on failure". -/
theorem C5_single_attempt_counterexample :
    (repository.executeWithRetry (fun _ => some (.validation "boom")) (fun _ => false)
      .canceled "repository.save_log" "req-1" 1 100 2000).err =
      some (.validation "boom") ∧
    isOpError (.validation "boom") = false := by decide

/-- Claim C5 (amended): when the attempt budget is at most 1, both executors
run the wrapped function exactly once with no backoff wait and no
retry/classification logic; `withRedisRetry` returns the function's error
wrapped with operation and correlation metadata on failure (a nil error is
returned as nil, unwrapped), while `executeWithRetry` returns the
function's result raw, unwrapped even on failure. -/
theorem C5_single_attempt_amended (fn : Nat → Option GoError) (ctxDoneAt : Nat → Bool)
    (ctxErr : GoError) (operation requestID : String)
    (retryAttempts initialBackoff maxBackoff : Nat) (h : retryAttempts ≤ 1) :
    ((repository.executeWithRetry fn ctxDoneAt ctxErr operation requestID
        retryAttempts initialBackoff maxBackoff).calls = 1 ∧
      (repository.executeWithRetry fn ctxDoneAt ctxErr operation requestID
        retryAttempts initialBackoff maxBackoff).waits = [] ∧
      (repository.executeWithRetry fn ctxDoneAt ctxErr operation requestID
        retryAttempts initialBackoff maxBackoff).err = fn 0) ∧
    ((usecase.withRedisRetry fn ctxDoneAt ctxErr operation requestID
        retryAttempts initialBackoff maxBackoff).calls = 1 ∧
      (usecase.withRedisRetry fn ctxDoneAt ctxErr operation requestID
        retryAttempts initialBackoff maxBackoff).waits = [] ∧
      (usecase.withRedisRetry fn ctxDoneAt ctxErr operation requestID
        retryAttempts initialBackoff maxBackoff).err =
        (fn 0).map (GoError.opError operation requestID)) := by
  constructor
  · rw [repository.executeWithRetry, if_pos h]
    cases hfn : fn 0 <;> simp
  · rw [usecase.withRedisRetry, if_pos h]
    cases hfn : fn 0 <;> simp

/-- Claim C5 (witness): at budget 1, the repository executor returns the raw
error and the usecase executor the wrapped one; both make one call. -/
theorem C5_single_attempt_witness :
    (repository.executeWithRetry (fun _ => some .badConn) (fun _ => false) .canceled
      "repository.save_log" "req-1" 1 100 2000).err = some .badConn ∧
    (usecase.withRedisRetry (fun _ => some .badConn) (fun _ => false) .canceled
      "cache.set.result" "req-1" 1 50 1000).err =
      some (.opError "cache.set.result" "req-1" .badConn) := by
  exact ⟨(C5_single_attempt_amended (fun _ => some .badConn) (fun _ => false) .canceled
      "repository.save_log" "req-1" 1 100 2000 (by omega)).1.2.2,
    (C5_single_attempt_amended (fun _ => some .badConn) (fun _ => false) .canceled
      "cache.set.result" "req-1" 1 50 1000 (by omega)).2.2.2⟩

lemma retryLoop_top_waits (transient : GoError → Bool) (fn : Nat → Option GoError)
    (ctxDoneAt : Nat → Bool) (ctxErr : GoError) (operation requestID : String)
    (total maxB f backoff : Nat) (lastErr : Option GoError) :
    ∃ n ≤ f,
      (retryLoop transient fn ctxDoneAt ctxErr operation requestID total maxB
        (f + 1) 0 backoff lastErr).waits = (List.range n).map (backoffSeq maxB backoff) := by
  cases hfn : fn 0 with
  | none =>
    refine ⟨0, Nat.zero_le _, ?_⟩
    rw [retryLoop_zero_none _ _ _ _ _ _ _ _ _ _ _ hfn]
    simp
  | some e =>
    by_cases hstop : transient e = false ∨ 0 = total - 1
    · refine ⟨0, Nat.zero_le _, ?_⟩
      rw [retryLoop_zero_stop _ _ _ _ _ _ _ _ _ _ _ _ hfn hstop]
      simp
    · push_neg at hstop
      obtain ⟨ht, hne⟩ := hstop
      have ht' : transient e = true := by simpa using ht
      obtain ⟨n, hn, hw⟩ := retryLoop_waits_shape transient fn ctxDoneAt ctxErr operation
        requestID total maxB f 1 backoff (some e) (Nat.le_refl 1)
      refine ⟨n, hn, ?_⟩
      rw [retryLoop_zero_cont _ _ _ _ _ _ _ _ _ _ _ _ hfn ht' hne]
      simpa using hw

lemma waits_schedule_props (w : List Nat) (init maxB : Nat) (hcap : init * 2 ≤ maxB)
    (h : w = [] ∨ w = [init] ∨ w = [init, init * 2]) :
    (∀ j, j < w.length → w.getD j 0 = min (init * 2 ^ j) maxB) ∧
    List.Chain' (fun a b => a ≤ b) w ∧ (∀ x ∈ w, x ≤ maxB) := by
  rcases h with rfl | rfl | rfl
  · exact ⟨fun j hj => absurd hj (by simp), by simp, by simp⟩
  · refine ⟨?_, by simp, ?_⟩
    · intro j hj
      simp only [List.length_cons, List.length_nil] at hj
      interval_cases j
      simp only [List.getD_cons_zero, pow_zero, mul_one]
      omega
    · intro x hx
      simp only [List.mem_singleton] at hx
      omega
  · refine ⟨?_, ?_, ?_⟩
    · intro j hj
      simp only [List.length_cons, List.length_nil] at hj
      interval_cases j
      · simp only [List.getD_cons_zero, pow_zero, mul_one]
        omega
      · simp only [List.getD_cons_succ, List.getD_cons_zero, pow_one]
        omega
    · simp only [List.chain'_cons, List.chain'_singleton, and_true]
      omega
    · intro x hx
      simp only [List.mem_cons, List.mem_singleton] at hx
      rcases hx with rfl | rfl | h
      · omega
      · omega
      · simp at h

/-- Claim C3: at the two retry configurations the program constructs
(persistence: 3 attempts, 100 ms initial, 2 s cap; cache: 3 attempts,
50 ms initial, 1 s cap), every wait slept before retry `j + 1` equals
`min(initialBackoff * 2 ^ j, maxBackoff)`, and the wait sequence is
non-decreasing and never exceeds `maxBackoff`. -/
theorem C3_backoff_schedule (fn : Nat → Option GoError) (ctxDoneAt : Nat → Bool)
    (ctxErr : GoError) (operation requestID : String) :
    ((∀ j, j < (repository.executeWithRetry fn ctxDoneAt ctxErr operation requestID
          3 100 2000).waits.length →
        (repository.executeWithRetry fn ctxDoneAt ctxErr operation requestID
          3 100 2000).waits.getD j 0 = min (100 * 2 ^ j) 2000) ∧
      List.Chain' (fun a b => a ≤ b)
        (repository.executeWithRetry fn ctxDoneAt ctxErr operation requestID
          3 100 2000).waits ∧
      (∀ x ∈ (repository.executeWithRetry fn ctxDoneAt ctxErr operation requestID
          3 100 2000).waits, x ≤ 2000)) ∧
    ((∀ j, j < (usecase.withRedisRetry fn ctxDoneAt ctxErr operation requestID
          3 50 1000).waits.length →
        (usecase.withRedisRetry fn ctxDoneAt ctxErr operation requestID
          3 50 1000).waits.getD j 0 = min (50 * 2 ^ j) 1000) ∧
      List.Chain' (fun a b => a ≤ b)
        (usecase.withRedisRetry fn ctxDoneAt ctxErr operation requestID
          3 50 1000).waits ∧
      (∀ x ∈ (usecase.withRedisRetry fn ctxDoneAt ctxErr operation requestID
          3 50 1000).waits, x ≤ 1000)) := by
  constructor
  · have hshape : ∃ n ≤ 2,
        (repository.executeWithRetry fn ctxDoneAt ctxErr operation requestID
          3 100 2000).waits = (List.range n).map (backoffSeq 2000 100) := by
      rw [executeWithRetry_eq_loop _ _ _ _ _ _ _ _ (by omega)]
      exact retryLoop_top_waits _ _ _ _ _ _ _ _ _ _ _
    obtain ⟨n, hn, hw⟩ := hshape
    refine waits_schedule_props _ 100 2000 (by omega) ?_
    interval_cases n
    · left; simpa using hw
    · right; left; rw [hw]; norm_num [List.range_succ, backoffSeq]
    · right; right; rw [hw]; norm_num [List.range_succ, backoffSeq]
  · have hshape : ∃ n ≤ 2,
        (usecase.withRedisRetry fn ctxDoneAt ctxErr operation requestID
          3 50 1000).waits = (List.range n).map (backoffSeq 1000 50) := by
      rw [withRedisRetry_eq_loop _ _ _ _ _ _ _ _ (by omega)]
      exact retryLoop_top_waits _ _ _ _ _ _ _ _ _ _ _
    obtain ⟨n, hn, hw⟩ := hshape
    refine waits_schedule_props _ 50 1000 (by omega) ?_
    interval_cases n
    · left; simpa using hw
    · right; left; rw [hw]; norm_num [List.range_succ, backoffSeq]
    · right; right; rw [hw]; norm_num [List.range_succ, backoffSeq]

/-- Claim C3 (witness): with transient failures throughout, the persistence
executor sleeps 100 ms before the first retry (min of 100 * 2 ^ 0 and the
2 s cap). -/
theorem C3_backoff_schedule_witness :
    (repository.executeWithRetry (fun _ => some .netTimeout) (fun _ => false) .canceled
      "repository.save_log" "req-1" 3 100 2000).waits.getD 0 0 = min (100 * 2 ^ 0) 2000 := by
  exact (C3_backoff_schedule (fun _ => some .netTimeout) (fun _ => false) .canceled
    "repository.save_log" "req-1").1.1 0 (by decide)

lemma executor_loop_cancel (transient : GoError → Bool) (fn : Nat → Option GoError)
    (ctxDoneAt : Nat → Bool) (ctxErr : GoError) (operation requestID : String)
    (total maxB initB k : Nat) (h2 : 2 ≤ total) (hk1 : 1 ≤ k) (hk2 : k ≤ total - 1)
    (hfail : ∀ j, j < k → ∃ e, fn j = some e ∧ transient e = true)
    (hlive : ∀ j, 1 ≤ j → j < k → ctxDoneAt j = false)
    (hdone : ctxDoneAt k = true) :
    (retryLoop transient fn ctxDoneAt ctxErr operation requestID total maxB
        total 0 initB none).err = some (.opError operation requestID ctxErr) ∧
    (retryLoop transient fn ctxDoneAt ctxErr operation requestID total maxB
        total 0 initB none).calls = k := by
  obtain ⟨f, rfl⟩ : ∃ f, total = f + 1 := ⟨total - 1, by omega⟩
  obtain ⟨e0, hf0, ht0⟩ := hfail 0 (by omega)
  have hne : ¬(0 = f + 1 - 1) := by omega
  have hcancel := retryLoop_cancel transient fn ctxDoneAt ctxErr operation requestID
    (f + 1) maxB (k - 1) f 1 initB (some e0) (Nat.le_refl 1) (by omega)
    (by
      intro j hj1 hj2
      refine ⟨hfail j (by omega), by omega, hlive j hj1 (by omega)⟩)
    (by
      have hk : 1 + (k - 1) = k := by omega
      rw [hk]; exact hdone)
  rw [retryLoop_zero_cont _ _ _ _ _ _ _ _ _ _ _ _ hf0 ht0 hne]
  refine ⟨by simpa using hcancel.2.1, ?_⟩
  have := hcancel.1
  simp only []
  omega

/-- Claim C4: if the caller's cancellation signal is up when the wait before
attempt `k` starts (after `k` transient failures, the signal quiet during
earlier waits), both retry executors abort before invoking the next attempt
— exactly `k` invocations happen — and return a wrapped cancellation error
carrying the operation name, the correlation id, and the context's
cancellation cause. -/
theorem C4_cancellation_aborts (fn : Nat → Option GoError) (ctxDoneAt : Nat → Bool)
    (ctxErr : GoError) (operation requestID : String)
    (retryAttempts initialBackoff maxBackoff k : Nat) :
    (2 ≤ retryAttempts → 1 ≤ k → k ≤ retryAttempts - 1 →
      (∀ j, j < k → ∃ e, fn j = some e ∧ repository.isTransientError e = true) →
      (∀ j, 1 ≤ j → j < k → ctxDoneAt j = false) →
      ctxDoneAt k = true →
      (repository.executeWithRetry fn ctxDoneAt ctxErr operation requestID
          retryAttempts initialBackoff maxBackoff).err =
        some (.opError operation requestID ctxErr) ∧
      (repository.executeWithRetry fn ctxDoneAt ctxErr operation requestID
          retryAttempts initialBackoff maxBackoff).calls = k) ∧
    (2 ≤ retryAttempts → 1 ≤ k → k ≤ retryAttempts - 1 →
      (∀ j, j < k → ∃ e, fn j = some e ∧ usecase.isTransientError e = true) →
      (∀ j, 1 ≤ j → j < k → ctxDoneAt j = false) →
      ctxDoneAt k = true →
      (usecase.withRedisRetry fn ctxDoneAt ctxErr operation requestID
          retryAttempts initialBackoff maxBackoff).err =
        some (.opError operation requestID ctxErr) ∧
      (usecase.withRedisRetry fn ctxDoneAt ctxErr operation requestID
          retryAttempts initialBackoff maxBackoff).calls = k) := by
  constructor
  · intro h2 hk1 hk2 hfail hlive hdone
    rw [executeWithRetry_eq_loop _ _ _ _ _ _ _ _ h2]
    exact executor_loop_cancel _ _ _ _ _ _ _ _ _ _ h2 hk1 hk2 hfail hlive hdone
  · intro h2 hk1 hk2 hfail hlive hdone
    rw [withRedisRetry_eq_loop _ _ _ _ _ _ _ _ h2]
    exact executor_loop_cancel _ _ _ _ _ _ _ _ _ _ h2 hk1 hk2 hfail hlive hdone

/-- Claim C4 (witness): cancellation firing during the first backoff wait of
the cache executor aborts after a single invocation with the wrapped
cancellation error. -/
theorem C4_cancellation_aborts_witness :
    (usecase.withRedisRetry (fun _ => some .netTimeout) (fun j => decide (j = 1)) .canceled
        "cache.set.result" "req-1" 3 50 1000).err =
      some (.opError "cache.set.result" "req-1" .canceled) ∧
    (usecase.withRedisRetry (fun _ => some .netTimeout) (fun j => decide (j = 1)) .canceled
        "cache.set.result" "req-1" 3 50 1000).calls = 1 := by
  exact (C4_cancellation_aborts (fun _ => some .netTimeout) (fun j => decide (j = 1))
      .canceled "cache.set.result" "req-1" 3 50 1000 1).2
    (by omega) (by omega) (by omega)
    (fun j hj => ⟨.netTimeout, rfl, by decide⟩)
    (fun j hj1 hj2 => by omega)
    (by decide)

lemma withRedisRetry_err_opError (fn : Nat → Option GoError) (ctxDoneAt : Nat → Bool)
    (ctxErr : GoError) (operation requestID : String)
    (retryAttempts initialBackoff maxBackoff : Nat) :
    ∀ e, (usecase.withRedisRetry fn ctxDoneAt ctxErr operation requestID
        retryAttempts initialBackoff maxBackoff).err = some e →
      ∃ c, e = .opError operation requestID c := by
  intro e h
  by_cases hle : retryAttempts ≤ 1
  · rw [usecase.withRedisRetry, if_pos hle] at h
    cases hfn : fn 0 with
    | none => rw [hfn] at h; simp at h
    | some e0 =>
      rw [hfn] at h
      simp at h
      exact ⟨e0, h.symm⟩
  · rw [withRedisRetry_eq_loop _ _ _ _ _ _ _ _ (by omega)] at h
    exact retryLoop_err_opError _ _ _ _ _ _ _ _ _ _ _ _ _ h

/-- Claim C6 (counterexample): on a scorer failure `VerifyImage` returns an
error tagged with operation name `usecase.grpc_process_image`, and on a
persistence failure one tagged `usecase.save_log` — not the claim's
`grpc_process_image` and `save_log`. -/
theorem C6_verify_image_counterexample :
    (usecase.VerifyImage 3 50 1000 (fun _ => "aa") (fun _ _ _ => "details") (fun _ => "json")
        ⟨⟨fun _ => none, fun _ => false⟩, .error (.validation "boom"), none,
          ⟨fun _ => none, fun _ => false⟩, .canceled, 7⟩
        "alice" [1, 2] "req-1").1 =
      .error (.opError "usecase.grpc_process_image" "req-1" (.validation "boom")) ∧
    "usecase.grpc_process_image" ≠ "grpc_process_image" ∧
    (usecase.VerifyImage 3 50 1000 (fun _ => "aa") (fun _ _ _ => "details") (fun _ => "json")
        ⟨⟨fun _ => none, fun _ => false⟩, .ok ⟨true, 9, "ok"⟩, some (.validation "dup"),
          ⟨fun _ => none, fun _ => false⟩, .canceled, 7⟩
        "alice" [1, 2] "req-1").1 =
      .error (.opError "usecase.save_log" "req-1" (.validation "dup")) ∧
    "usecase.save_log" ≠ "save_log" := by
  refine ⟨rfl, by decide, rfl, by decide⟩

/-- Claim C6 (amended): `VerifyImage` advances through its steps in exactly
the order processing-marker write (1-minute TTL), scorer call, fingerprint
plus record save, 5-minute result-snapshot write under the same cache key;
on failure of a step it returns an error tagged with that step's operation
name (`cache.set.processing`, `usecase.grpc_process_image`,
`usecase.save_log`, `cache.set.result` respectively) and executes none of
the later steps; on full success it returns the generated requestID and the
scorer's result. -/
theorem C6_verify_image_amended (sha1Hex : List Nat → String)
    (fmtDetails : Bool → Int → String → String)
    (jsonEncode : usecase.cachedVerification → String) (env : usecase.VerifyEnv)
    (userID : String) (imageBytes : List Nat) (requestID : String) :
    ((∀ e, (usecase.withRedisRetry env.setProcessing.fnErr env.setProcessing.ctxDoneAt
          env.ctxErr "cache.set.processing" requestID 3 50 1000).err = some e →
        usecase.VerifyImage 3 50 1000 sha1Hex fmtDetails jsonEncode env
            userID imageBytes requestID =
          (.error e, [.cacheSet ("verification:" ++ requestID) "processing" 60]) ∧
        ∃ c, e = .opError "cache.set.processing" requestID c) ∧
      ((usecase.withRedisRetry env.setProcessing.fnErr env.setProcessing.ctxDoneAt
          env.ctxErr "cache.set.processing" requestID 3 50 1000).err = none →
        (∀ e, env.procResult = .error e →
          usecase.VerifyImage 3 50 1000 sha1Hex fmtDetails jsonEncode env
              userID imageBytes requestID =
            (.error (.opError "usecase.grpc_process_image" requestID e),
              [.cacheSet ("verification:" ++ requestID) "processing" 60,
                .grpcProcess userID imageBytes])) ∧
        (∀ r, env.procResult = .ok r →
          (∀ e, env.saveErr = some e →
            usecase.VerifyImage 3 50 1000 sha1Hex fmtDetails jsonEncode env
                userID imageBytes requestID =
              (.error (.opError "usecase.save_log" requestID e),
                [.cacheSet ("verification:" ++ requestID) "processing" 60,
                  .grpcProcess userID imageBytes,
                  .saveLog ⟨requestID, userID, sha1Hex imageBytes, r.score, r.success,
                    fmtDetails r.success r.score (sha1Hex imageBytes), env.now⟩])) ∧
          (env.saveErr = none →
            (∀ e, (usecase.withRedisRetry env.setResult.fnErr env.setResult.ctxDoneAt
                env.ctxErr "cache.set.result" requestID 3 50 1000).err = some e →
              usecase.VerifyImage 3 50 1000 sha1Hex fmtDetails jsonEncode env
                  userID imageBytes requestID =
                (.error e,
                  [.cacheSet ("verification:" ++ requestID) "processing" 60,
                    .grpcProcess userID imageBytes,
                    .saveLog ⟨requestID, userID, sha1Hex imageBytes, r.score, r.success,
                      fmtDetails r.success r.score (sha1Hex imageBytes), env.now⟩,
                    .cacheSet ("verification:" ++ requestID)
                      (jsonEncode ⟨requestID, userID, r.score, r.success,
                        fmtDetails r.success r.score (sha1Hex imageBytes),
                        sha1Hex imageBytes, env.now⟩) 300]) ∧
              ∃ c, e = .opError "cache.set.result" requestID c) ∧
            ((usecase.withRedisRetry env.setResult.fnErr env.setResult.ctxDoneAt
                env.ctxErr "cache.set.result" requestID 3 50 1000).err = none →
              usecase.VerifyImage 3 50 1000 sha1Hex fmtDetails jsonEncode env
                  userID imageBytes requestID =
                (.ok (requestID, r),
                  [.cacheSet ("verification:" ++ requestID) "processing" 60,
                    .grpcProcess userID imageBytes,
                    .saveLog ⟨requestID, userID, sha1Hex imageBytes, r.score, r.success,
                      fmtDetails r.success r.score (sha1Hex imageBytes), env.now⟩,
                    .cacheSet ("verification:" ++ requestID)
                      (jsonEncode ⟨requestID, userID, r.score, r.success,
                        fmtDetails r.success r.score (sha1Hex imageBytes),
                        sha1Hex imageBytes, env.now⟩) 300])))))) := by
  constructor
  · intro e h1
    refine ⟨?_, withRedisRetry_err_opError _ _ _ _ _ _ _ _ e h1⟩
    simp only [usecase.VerifyImage, h1]
  · intro h1
    constructor
    · intro e h2
      simp [usecase.VerifyImage, h1, h2]
    · intro r h2
      constructor
      · intro e h3
        simp [usecase.VerifyImage, h1, h2, h3]
      · intro h3
        constructor
        · intro e h4
          refine ⟨?_, withRedisRetry_err_opError _ _ _ _ _ _ _ _ e h4⟩
          simp [usecase.VerifyImage, h1, h2, h3, h4]
        · intro h4
          simp [usecase.VerifyImage, h1, h2, h3, h4]

/-- Claim C6 (witness): a fully successful run executes the four steps in
order and returns the requestID with the scorer's result. -/
theorem C6_verify_image_witness :
    usecase.VerifyImage 3 50 1000 (fun _ => "aa") (fun _ _ _ => "details") (fun _ => "json")
        ⟨⟨fun _ => none, fun _ => false⟩, .ok ⟨true, 9, "ok"⟩, none,
          ⟨fun _ => none, fun _ => false⟩, .canceled, 7⟩
        "alice" [1, 2] "req-1" =
      (.ok ("req-1", ⟨true, 9, "ok"⟩),
        [.cacheSet "verification:req-1" "processing" 60,
          .grpcProcess "alice" [1, 2],
          .saveLog ⟨"req-1", "alice", "aa", 9, true, "details", 7⟩,
          .cacheSet "verification:req-1" "json" 300]) := by
  exact ((((C6_verify_image_amended (fun _ => "aa") (fun _ _ _ => "details") (fun _ => "json")
      ⟨⟨fun _ => none, fun _ => false⟩, .ok ⟨true, 9, "ok"⟩, none,
        ⟨fun _ => none, fun _ => false⟩, .canceled, 7⟩
      "alice" [1, 2] "req-1").2 rfl).2 ⟨true, 9, "ok"⟩ rfl).2 rfl).2 rfl

/-- Claim C7: whenever the cache read path of `GetResult` does not produce a
usable snapshot — the cache get ends in the distinguished key-not-present
value (which the classifier never marks transient, so it is never retried),
or in any other cache error, or the payload fails to deserialize —
`GetResult` queries the durable store exactly once and returns that call's
outcome. -/
theorem C7_get_result_cache_fallback (jsonDecode : String → Option usecase.cachedVerification)
    (env : usecase.GetEnv) (userID requestID : String) :
    usecase.isTransientError .redisNil = false ∧
    (env.getErr 0 = some .redisNil →
      (usecase.withRedisRetry env.getErr env.ctxDoneAt env.ctxErr "cache.get.result"
        requestID 3 50 1000).calls = 1) ∧
    (∀ e, usecase.withRedisGet 3 50 1000 env requestID "cache.get.result"
        ("verification:" ++ requestID) = .error e →
      usecase.GetResult 3 50 1000 jsonDecode env userID requestID = (env.findResult, 1)) ∧
    (∀ s, usecase.withRedisGet 3 50 1000 env requestID "cache.get.result"
        ("verification:" ++ requestID) = .ok s →
      jsonDecode s = none →
      usecase.GetResult 3 50 1000 jsonDecode env userID requestID = (env.findResult, 1)) := by
  refine ⟨by decide, ?_, ?_, ?_⟩
  · intro h
    rw [withRedisRetry_eq_loop _ _ _ _ _ _ _ _ (by omega)]
    rw [retryLoop_zero_stop _ _ _ _ _ _ _ _ _ _ _ _ h (Or.inl (by decide))]
  · intro e h
    simp only [usecase.GetResult, h]
  · intro s h hdec
    simp only [usecase.GetResult, h, hdec]

/-- Claim C7 (witness): with the cache get answering the distinguished miss,
the executor makes one call and `GetResult` returns the durable-store
outcome after exactly one store query. -/
theorem C7_get_result_cache_fallback_witness :
    (usecase.withRedisRetry (fun _ => some .redisNil) (fun _ => false) .canceled
      "cache.get.result" "req-1" 3 50 1000).calls = 1 ∧
    usecase.GetResult 3 50 1000 (fun _ => none)
        ⟨fun _ => some .redisNil, fun _ => "", fun _ => false, .canceled,
          .error .recordNotFound⟩
        "alice" "req-1" = (.error .recordNotFound, 1) := by
  constructor
  · exact (C7_get_result_cache_fallback (fun _ => none)
      ⟨fun _ => some .redisNil, fun _ => "", fun _ => false, .canceled,
        .error .recordNotFound⟩ "alice" "req-1").2.1 rfl
  · exact (C7_get_result_cache_fallback (fun _ => none)
      ⟨fun _ => some .redisNil, fun _ => "", fun _ => false, .canceled,
        .error .recordNotFound⟩ "alice" "req-1").2.2.1
      (.opError "cache.get.result" "req-1" .redisNil) rfl

/-- Claim C8: when the cache read of `GetResult` succeeds and the payload
deserializes, the durable store is not queried at all and the returned
record carries the snapshot's score, success flag, details, fingerprint and
creation time, with the snapshot's userID and requestID replacing the
lookup arguments exactly when those cached fields are non-empty. -/
theorem C8_cached_snapshot_hit (jsonDecode : String → Option usecase.cachedVerification)
    (env : usecase.GetEnv) (userID requestID s : String)
    (payload : usecase.cachedVerification) :
    usecase.withRedisGet 3 50 1000 env requestID "cache.get.result"
      ("verification:" ++ requestID) = .ok s →
    jsonDecode s = some payload →
    usecase.GetResult 3 50 1000 jsonDecode env userID requestID =
      (.ok ⟨(if payload.requestID ≠ "" then payload.requestID else requestID),
            (if payload.userID ≠ "" then payload.userID else userID),
            payload.hash, payload.score, payload.success, payload.details,
            payload.createdAt⟩, 0) := by
  intro h1 h2
  by_cases hu : payload.userID = "" <;> by_cases hr : payload.requestID = "" <;>
    simp [usecase.GetResult, h1, h2, hu, hr]

/-- Claim C8 (witness): a well-formed snapshot is returned without touching
the store, its non-empty userID and requestID overriding the arguments. -/
theorem C8_cached_snapshot_hit_witness :
    usecase.GetResult 3 50 1000
        (fun s => if s = "snap" then some ⟨"req-9", "carol", 5, true, "d", "hh", 42⟩ else none)
        ⟨fun _ => none, fun _ => "snap", fun _ => false, .canceled, .error .recordNotFound⟩
        "alice" "req-1" =
      (.ok ⟨"req-9", "carol", "hh", 5, true, "d", 42⟩, 0) := by
  exact C8_cached_snapshot_hit
    (fun s => if s = "snap" then some ⟨"req-9", "carol", 5, true, "d", "hh", 42⟩ else none)
    ⟨fun _ => none, fun _ => "snap", fun _ => false, .canceled, .error .recordNotFound⟩
    "alice" "req-1" "snap" ⟨"req-9", "carol", 5, true, "d", "hh", 42⟩ rfl (by simp)

/-- Claim C9: `GetMetricsSummary` copies the aggregate's total, successful,
average-score and average-latency fields unchanged, computes the success
rate as successCount / totalCount when totalCount > 0 and leaves it 0 when
totalCount = 0 (totals 5/3 give 0.6, an empty store gives 0, with no
division by zero), and propagates any aggregation error unchanged. -/
theorem C9_metrics_summary (a : repository.MetricsAggregation) (e : GoError) :
    usecase.GetMetricsSummary (.ok a) =
      .ok ⟨a.totalCount, a.successCount,
        (if 0 < a.totalCount then (a.successCount : ℚ) / (a.totalCount : ℚ) else 0),
        a.averageScore, a.averageProcessingLatencyMs⟩ ∧
    usecase.GetMetricsSummary (.ok ⟨5, 3, 0, 0⟩) = .ok ⟨5, 3, (0.6 : ℚ), 0, 0⟩ ∧
    usecase.GetMetricsSummary (.ok ⟨0, 0, 0, 0⟩) = .ok ⟨0, 0, 0, 0, 0⟩ ∧
    usecase.GetMetricsSummary (.error e) = .error e := by
  refine ⟨?_, ?_, ?_, rfl⟩
  · by_cases h : 0 < a.totalCount <;> simp [usecase.GetMetricsSummary, h]
  · norm_num [usecase.GetMetricsSummary]
  · simp [usecase.GetMetricsSummary]

/-- Claim C10: `GetResult` performs no ownership check on the cache path —
with a well-formed snapshot owned by "alice" cached, a lookup by "mallory"
returns the record from the cache (the snapshot's userID replacing the
argument) without querying the store, while the durable-store path
`FindByRequestIDAndUser`, which filters by userID, answers record-not-found
for "mallory" and finds the record only for "alice". -/
theorem C10_cache_path_no_ownership_check :
    usecase.GetResult 3 50 1000
        (fun s => if s = "snapshot" then some ⟨"req-1", "alice", 9, true, "d", "aa11", 100⟩
          else none)
        ⟨fun _ => none, fun _ => "snapshot", fun _ => false, .canceled,
          .error (.opError "repository.find_by_request_and_user" "req-1" .recordNotFound)⟩
        "mallory" "req-1" =
      (.ok ⟨"req-1", "alice", "aa11", 9, true, "d", 100⟩, 0) ∧
    repository.FindByRequestIDAndUser [⟨"req-1", "alice", "aa11", 9, true, "d", 100⟩]
        (fun _ => false) .canceled "req-1" "mallory" =
      .error (.opError "repository.find_by_request_and_user" "req-1" .recordNotFound) ∧
    repository.FindByRequestIDAndUser [⟨"req-1", "alice", "aa11", 9, true, "d", 100⟩]
        (fun _ => false) .canceled "req-1" "alice" =
      .ok ⟨"req-1", "alice", "aa11", 9, true, "d", 100⟩ := by
  refine ⟨rfl, rfl, rfl⟩
